import Mathlib

/-!
Verification development for `script/lending/achieve_apy_goals.py`:
a convergence control loop that drives lending pools toward target
utilization ratios by issuing borrow transactions.

The script's arithmetic (lines 99-109) is modelled exactly over `ℚ`
(the Python source uses binary floats; the real-valued algorithm is
embedded with exact rational arithmetic).  Subprocess invocations
(`cast call`, `cast send`) are modelled as environment functions
returning `Except String _`, where `.error` stands for a raised
Python exception.
-/

namespace AchieveApyGoals

/-- Line 101: `current_util = (total_borr_float / total_liq_float * 100) if
total_liq_float > 0 else 0`, with the unit conversions of lines 99-100. -/
def current_util (total_liq total_borr : ℕ) (decimals : ℕ) : ℚ :=
  let total_liq_float : ℚ := (total_liq : ℚ) / 10 ^ decimals
  let total_borr_float : ℚ := (total_borr : ℚ) / 10 ^ decimals
  if total_liq_float > 0 then total_borr_float / total_liq_float * 100 else 0

/-- Lines 99-108: convert raw amounts to decimal units, compute
`target_borr = total_liq_float * (util / 100)` and
`additional_borrow = max(0, target_borr - total_borr_float)`. -/
def additional_borrow (total_liq total_borr : ℕ) (util : ℚ) (decimals : ℕ) : ℚ :=
  let total_liq_float : ℚ := (total_liq : ℚ) / 10 ^ decimals
  let total_borr_float : ℚ := (total_borr : ℚ) / 10 ^ decimals
  let target_borr : ℚ := total_liq_float * (util / 100)
  max 0 (target_borr - total_borr_float)

/-- Line 109: `additional_borrow_raw = int(additional_borrow * (10 ** decimals))`.
`additional_borrow` is nonnegative, so Python's truncating `int()` is `⌊·⌋`. -/
def additional_borrow_raw (total_liq total_borr : ℕ) (util : ℚ) (decimals : ℕ) : ℕ :=
  (⌊additional_borrow total_liq total_borr util decimals * 10 ^ decimals⌋).toNat

/-- Per-asset configuration, one entry of the `targets` dict (lines 23-33):
`{'util': ..., 'decimals': ..., 'status': ...}`. -/
structure AssetConfig where
  util : ℚ
  decimals : ℕ
  status : String
deriving DecidableEq, Repr

/-- The `targets` dict of lines 23-33, in insertion order. -/
def targets : List (String × AssetConfig) :=
  [ ("WBTC",   ⟨20.91, 8,  "achieved"⟩),
    ("WETH",   ⟨30.19, 18, "pending"⟩),
    ("IDRX",   ⟨59.14, 6,  "pending"⟩),
    ("GOLD",   ⟨12.10, 6,  "pending"⟩),
    ("SILVER", ⟨54.18, 6,  "pending"⟩),
    ("GOOGL",  ⟨25.54, 6,  "pending"⟩),
    ("NVDA",   ⟨30.23, 6,  "pending"⟩),
    ("AAPL",   ⟨13.77, 6,  "pending"⟩),
    ("MNT",    ⟨25.09, 6,  "pending"⟩) ]

/-- A network-boundary operation performed by the script: a pool-state read
(`get_pool_state`, two `cast call`s treated as one snapshot) or a borrow
submission (`cast send` inside `borrow_asset`). -/
inductive NetEvent where
  | read (token : String)
  | borrow (token : String) (amountRaw : ℕ)
deriving DecidableEq, Repr

/-- Terminal status strings appended to `results` (lines 120, 123, 126, 130). -/
inductive RunStatus where
  | success
  | failed
  | no_action
  | error
deriving DecidableEq, Repr

/-- One entry of the `results` list: `(asset, status, amount)` (line 120 etc.). -/
abbrev Outcome := String × RunStatus × ℚ

/-- The external world the script interacts with:
`addressBook` is `deployments.get` (line 86); `readState` is the remote state
behind `get_pool_state` (lines 35-49), with `.error` standing for a raised
exception (transport or parse failure); `credential` is
`os.environ.get('PRIVATE_KEY')` (line 20); `sendBorrow` is the
`cast send` subprocess behind `borrow_asset` given a credential, returning
`(stdout, stderr)` on completion or `.error` for a raised exception
(e.g. `subprocess.TimeoutExpired`). -/
structure Env where
  addressBook : String → Option String
  readState : String → Except String (ℕ × ℕ)
  credential : Option String
  sendBorrow : String → String → ℕ → Except String (String × String)

/-- Line 86-87: `token_address = deployments.get(asset); if not token_address:`.
Python treats both `None` and the empty string as falsy, so an empty address
is also skipped. -/
def lookupAddr (env : Env) (asset : String) : Option String :=
  match env.addressBook asset with
  | none => none
  | some a => if a = "" then none else some a

/-- The subprocess invocation of lines 54-60 as seen from `borrow_asset`:
when `PRIVATE_KEY` is `None` (line 20, credential absent), passing it as a
command argument (line 57) makes `subprocess.run` raise `TypeError`, which
surfaces as an exceptional result; otherwise the configured transport runs. -/
def runCast (env : Env) (token : String) (amountRaw : ℕ) :
    Except String (String × String) :=
  match env.credential with
  | none => Except.error "TypeError: expected str, bytes or os.PathLike object, not NoneType"
  | some key => env.sendBorrow key token amountRaw

/-- `pat` begins the character list `s`. -/
def leadsWith : List Char → List Char → Bool
  | [], _ => true
  | _ :: _, [] => false
  | p :: ps, c :: cs => p = c && leadsWith ps cs

/-- `pat` occurs contiguously in `s`. -/
def listContains : List Char → List Char → Bool
  | s, pat =>
    match s with
    | [] => leadsWith pat []
    | _ :: cs => leadsWith pat s || listContains cs pat

/-- Python's substring test `pat in s`. -/
def hasSubstr (s pat : String) : Bool := listContains s.data pat.data

/-- Lines 51-68, `borrow_asset`, with the subprocess result abstracted as
input: success iff `'transactionHash' in result.stdout` (line 62), returning
the first stdout line containing it (line 63); otherwise `(False, stderr)`;
any raised exception is caught and returned as `(False, str(e))` (line 68). -/
def borrow_asset (res : Except String (String × String)) : Bool × String :=
  match res with
  | Except.error e => (false, e)
  | Except.ok (stdout, stderr) =>
    if hasSubstr stdout "transactionHash" then
      (true, ((stdout.splitOn "\n").filter (fun line => hasSubstr line "transactionHash")).headD "")
    else
      (false, stderr)

/-- Lines 81-130, the body of the per-asset loop in `main`: status gating
(lines 82-84), address resolution (lines 86-89), the `try` block reading pool
state and computing the plan (lines 94-109), the borrow dispatch (lines
111-126), and exception capture as an `error` record (lines 128-130).
Returns the network events performed and the entries appended to `results`. -/
def processAsset (env : Env) (asset : String) (cfg : AssetConfig) :
    List NetEvent × List Outcome :=
  if cfg.status = "achieved" then ([], [])
  else
    match lookupAddr env asset with
    | none => ([], [])
    | some token =>
      match env.readState token with
      | Except.error _ => ([NetEvent.read token], [(asset, RunStatus.error, 0)])
      | Except.ok (total_liq, total_borr) =>
        let amt := additional_borrow total_liq total_borr cfg.util cfg.decimals
        let amtRaw := additional_borrow_raw total_liq total_borr cfg.util cfg.decimals
        if 0 < amtRaw then
          let r := borrow_asset (runCast env token amtRaw)
          ([NetEvent.read token, NetEvent.borrow token amtRaw],
           [(asset, if r.1 then RunStatus.success else RunStatus.failed, amt)])
        else
          ([NetEvent.read token], [(asset, RunStatus.no_action, 0)])

/-- Lines 79-130: the whole loop of `main` over a configured asset list,
accumulating network events and the `results` list in configured order. -/
def mainRun (env : Env) (assets : List (String × AssetConfig)) :
    List NetEvent × List Outcome :=
  match assets with
  | [] => ([], [])
  | (asset, cfg) :: rest =>
    let p := processAsset env asset cfg
    let r := mainRun env rest
    (p.1 ++ r.1, p.2 ++ r.2)

/-- A world where no asset resolves in the address book and no network is
reachable: exercises the skip paths of lines 82-89. -/
def envNone : Env :=
  { addressBook := fun _ => none
    readState := fun _ => Except.error "no network"
    credential := none
    sendBorrow := fun _ _ _ => Except.error "no network" }

/-- A world with one resolvable asset and a healthy pool, but with
`PRIVATE_KEY` absent from the environment (line 20 yields `None`). -/
def envNoKey : Env :=
  { addressBook := fun a => if a = "WETH" then some "0xW" else none
    readState := fun _ => Except.ok (1000, 0)
    credential := none
    sendBorrow := fun _ _ _ => Except.ok ("transactionHash 0x2", "") }

/-- A world where every pool-state read raises, for two resolvable assets. -/
def envErr : Env :=
  { addressBook := fun a =>
      if a = "GOLD" then some "0xG" else if a = "SILVER" then some "0xS" else none
    readState := fun _ => Except.error "boom"
    credential := some "k"
    sendBorrow := fun _ _ _ => Except.ok ("transactionHash 0x2", "") }

/-- Scaling by `10 ^ decimals` undoes the unit conversion of lines 99-100:
the decimal-unit correction, rescaled to raw units, is
`max 0 (L * T / 100 - B)` on the raw integers. -/
theorem additional_borrow_mul_pow (L B : ℕ) (T : ℚ) (D : ℕ) :
    additional_borrow L B T D * 10 ^ D = max 0 ((L : ℚ) * T / 100 - (B : ℚ)) := by
  have h10 : (0:ℚ) < 10 ^ D := by positivity
  unfold additional_borrow
  rw [max_mul_of_nonneg _ _ h10.le, zero_mul]
  congr 1
  field_simp
  ring

/-- Closed form for line 109's raw amount. -/
theorem additional_borrow_raw_eq (L B : ℕ) (T : ℚ) (D : ℕ) :
    additional_borrow_raw L B T D = (⌊max 0 ((L : ℚ) * T / 100 - (B : ℚ))⌋).toNat := by
  unfold additional_borrow_raw
  rw [additional_borrow_mul_pow]

/-- When the raw-unit correction is nonpositive, line 108's `max` clamps the
plan to zero. -/
theorem raw_zero_of_nonpos (L B : ℕ) (T : ℚ) (D : ℕ)
    (h : (L : ℚ) * T / 100 - (B : ℚ) ≤ 0) :
    additional_borrow_raw L B T D = 0 := by
  rw [additional_borrow_raw_eq, max_eq_left h]
  simp

/-- The outcome list of a run over a concatenation splits accordingly. -/
theorem mainRun_append_snd (env : Env) (xs ys : List (String × AssetConfig)) :
    (mainRun env (xs ++ ys)).2 = (mainRun env xs).2 ++ (mainRun env ys).2 := by
  induction xs with
  | nil => simp [mainRun]
  | cons p rest ih =>
    obtain ⟨asset, cfg⟩ := p
    simp [mainRun, ih]

/-- A failing pool-state read yields exactly the read attempt and one error
record (lines 94-96, 128-130). -/
theorem processAsset_read_error (env : Env) (asset : String) (cfg : AssetConfig)
    (token msg : String)
    (h1 : cfg.status ≠ "achieved") (h2 : lookupAddr env asset = some token)
    (h3 : env.readState token = Except.error msg) :
    processAsset env asset cfg = ([NetEvent.read token], [(asset, RunStatus.error, 0)]) := by
  simp [processAsset, h1, h2, h3]

/-- Any borrow event emitted while processing one asset carries a strictly
positive amount (guard on line 111). -/
theorem processAsset_borrow_pos (env : Env) (asset : String) (cfg : AssetConfig)
    (token : String) (amt : ℕ)
    (h : NetEvent.borrow token amt ∈ (processAsset env asset cfg).1) : 0 < amt := by
  by_cases h1 : cfg.status = "achieved"
  · simp [processAsset, h1] at h
  · cases hA : lookupAddr env asset with
    | none => simp [processAsset, h1, hA] at h
    | some token' =>
      cases hR : env.readState token' with
      | error e => simp [processAsset, h1, hA, hR] at h
      | ok st =>
        obtain ⟨L, B⟩ := st
        by_cases hpos : 0 < additional_borrow_raw L B cfg.util cfg.decimals
        · simp [processAsset, h1, hA, hR, hpos] at h
          obtain ⟨-, rfl⟩ := h
          exact hpos
        · simp [processAsset, h1, hA, hR, hpos] at h

/-- The asset names in one asset's outcome records: empty when skipped,
exactly the asset once otherwise. -/
theorem processAsset_fst_map (env : Env) (asset : String) (cfg : AssetConfig) :
    ((processAsset env asset cfg).2).map Prod.fst
      = if cfg.status = "achieved" ∨ lookupAddr env asset = none then [] else [asset] := by
  by_cases h1 : cfg.status = "achieved"
  · simp [processAsset, h1]
  · cases hA : lookupAddr env asset with
    | none => simp [processAsset, h1, hA]
    | some token =>
      cases hR : env.readState token with
      | error e => simp [processAsset, h1, hA, hR]
      | ok st =>
        obtain ⟨L, B⟩ := st
        by_cases hpos : 0 < additional_borrow_raw L B cfg.util cfg.decimals
        · simp [processAsset, h1, hA, hR, hpos]
        · simp [processAsset, h1, hA, hR, hpos]

/-- Claim C1: for liquidity `L > 0`, borrowed `B ≥ 0` and target
`0 ≤ T ≤ 100`, the convergence calculation returns a (nonnegative)
additional borrow such that if utilization is already at or above target the
result is `0`, and otherwise the resulting borrowed amount lands within one
smallest raw unit below the exact target (equivalently the achieved
utilization is within `100/L` percentage points below `T`); in particular
`L=1000, B=200, T=50, D=0` yields exactly `300`. -/
theorem calc_converges_to_target (L B : ℕ) (T : ℚ) (D : ℕ)
    (hL : 0 < L) (hT0 : 0 ≤ T) (hT1 : T ≤ 100) :
    (T ≤ (B : ℚ) / (L : ℚ) * 100 → additional_borrow_raw L B T D = 0) ∧
    ((B : ℚ) / (L : ℚ) * 100 < T →
      ((B : ℚ) + (additional_borrow_raw L B T D : ℚ)) / (L : ℚ) * 100 ≤ T ∧
      T - ((B : ℚ) + (additional_borrow_raw L B T D : ℚ)) / (L : ℚ) * 100 < 100 / (L : ℚ)) ∧
    additional_borrow_raw 1000 200 50 0 = 300 := by
  have hLQ : (0:ℚ) < (L:ℚ) := by exact_mod_cast hL
  refine ⟨?_, ?_, ?_⟩
  · intro h
    apply raw_zero_of_nonpos
    rw [div_mul_eq_mul_div, le_div_iff₀ hLQ] at h
    linarith
  · intro h
    rw [div_mul_eq_mul_div, div_lt_iff₀ hLQ] at h
    have hr : 0 < (L : ℚ) * T / 100 - (B:ℚ) := by linarith
    have hfloor0 : 0 ≤ ⌊(L : ℚ) * T / 100 - (B:ℚ)⌋ := Int.floor_nonneg.mpr hr.le
    have hA : ((additional_borrow_raw L B T D : ℕ) : ℚ)
        = (⌊(L : ℚ) * T / 100 - (B:ℚ)⌋ : ℚ) := by
      rw [additional_borrow_raw_eq, max_eq_right hr.le]
      exact_mod_cast Int.toNat_of_nonneg hfloor0
    have h1 : ((additional_borrow_raw L B T D : ℚ)) ≤ (L : ℚ) * T / 100 - (B:ℚ) := by
      rw [hA]; exact Int.floor_le _
    have h2 : (L : ℚ) * T / 100 - (B:ℚ) < (additional_borrow_raw L B T D : ℚ) + 1 := by
      rw [hA]; exact Int.lt_floor_add_one _
    constructor
    · rw [div_mul_eq_mul_div, div_le_iff₀ hLQ]
      linarith
    · rw [div_mul_eq_mul_div, sub_lt_iff_lt_add, div_add_div_same, lt_div_iff₀ hLQ]
      linarith
  · rw [additional_borrow_raw_eq]
    norm_num
    decide

/-- Claim C1 witness: the theorem applied at `L=1000, B=200, T=50, D=0`. -/
theorem calc_converges_to_target_witness : additional_borrow_raw 1000 200 50 0 = 300 :=
  (calc_converges_to_target 1000 200 50 0 (by norm_num) (by norm_num) (by norm_num)).2.2

/-- Claim C2: whenever utilization is already at or above target — including
the over-utilized case `B > L` — the calculation yields `0`, and the
decimal-unit correction is never negative (no repay is ever produced); the
computation is a total function, so `B > L` cannot make it fail. -/
theorem at_or_above_target_no_borrow (L B : ℕ) (T : ℚ) (D : ℕ)
    (hL : 0 < L) (h : T ≤ (B : ℚ) / (L : ℚ) * 100) :
    additional_borrow_raw L B T D = 0 ∧
    ∀ (L' B' : ℕ) (T' : ℚ) (D' : ℕ), 0 ≤ additional_borrow L' B' T' D' := by
  have hLQ : (0:ℚ) < (L:ℚ) := by exact_mod_cast hL
  constructor
  · apply raw_zero_of_nonpos
    rw [div_mul_eq_mul_div, le_div_iff₀ hLQ] at h
    linarith
  · intro L' B' T' D'
    exact le_max_left 0 _

/-- Claim C2 witness: the theorem applied at the over-utilized input
`L=100, B=200` (utilization 200%) with target 50. -/
theorem at_or_above_target_no_borrow_witness :
    additional_borrow_raw 100 200 50 0 = 0 ∧
    ∀ (L' B' : ℕ) (T' : ℚ) (D' : ℕ), 0 ≤ additional_borrow L' B' T' D' :=
  at_or_above_target_no_borrow 100 200 50 0 (by norm_num) (by norm_num)

/-- Claim C3: with zero liquidity, the computed current utilization is `0`
(the guard on line 101 defines the `0/0` case as `0`) and the additional
borrow is `0`, for any borrowed amount and any positive target; both are
total computations, so nothing is raised. -/
theorem zero_liquidity_safe (B : ℕ) (T : ℚ) (D : ℕ) (hT : 0 < T) :
    current_util 0 B D = 0 ∧ additional_borrow_raw 0 B T D = 0 := by
  constructor
  · simp [current_util]
  · apply raw_zero_of_nonpos
    have hB : (0:ℚ) ≤ (B:ℚ) := Nat.cast_nonneg B
    push_cast
    linarith

/-- Claim C3 witness: the theorem applied at `L=0, B=0, T=30, D=0`
(end-to-end example 3). -/
theorem zero_liquidity_safe_witness :
    current_util 0 0 0 = 0 ∧ additional_borrow_raw 0 0 30 0 = 0 :=
  zero_liquidity_safe 0 30 0 (by norm_num)

/-- Claim C4: in every run, every borrow submitted to the executor carries a
strictly positive raw amount — `borrow_asset` is only reached under the
`additional_borrow_raw > 0` guard of line 111. -/
theorem borrow_executor_amount_positive (env : Env)
    (assets : List (String × AssetConfig)) (token : String) (amt : ℕ)
    (h : NetEvent.borrow token amt ∈ (mainRun env assets).1) : 0 < amt := by
  induction assets with
  | nil => simp [mainRun] at h
  | cons p rest ih =>
    obtain ⟨asset, cfg⟩ := p
    simp only [mainRun] at h
    rcases List.mem_append.mp h with h | h
    · exact processAsset_borrow_pos env asset cfg token amt h
    · exact ih h

/-- Claim C4 witness: the theorem applied to a concrete run that does emit a
borrow event, of amount 500. -/
theorem borrow_executor_amount_positive_witness : 0 < 500 := by
  apply borrow_executor_amount_positive envNoKey
    [("WETH", (⟨50, 0, "pending"⟩ : AssetConfig))] "0xW" 500
  have h1 : additional_borrow_raw 1000 0 50 0 = 500 := by
    norm_num [additional_borrow_raw, additional_borrow]
    decide
  have hev : (mainRun envNoKey [("WETH", (⟨50, 0, "pending"⟩ : AssetConfig))]).1
      = [NetEvent.read "0xW", NetEvent.borrow "0xW" 500] := by
    simp [mainRun, processAsset, lookupAddr, envNoKey, h1]
  rw [hev]
  simp

/-- Claim C5: an asset whose configured status is `'achieved'` triggers no
network-boundary operation and contributes nothing to a run: its processing
is empty (lines 82-84 `continue` before any call), and prepending it to any
run leaves the run unchanged. -/
theorem achieved_asset_skipped (env : Env) (asset : String) (cfg : AssetConfig)
    (assets : List (String × AssetConfig)) (h : cfg.status = "achieved") :
    processAsset env asset cfg = ([], []) ∧
    mainRun env ((asset, cfg) :: assets) = mainRun env assets := by
  have hp : processAsset env asset cfg = ([], []) := by simp [processAsset, h]
  exact ⟨hp, by simp [mainRun, hp]⟩

/-- Claim C5 witness: the theorem applied to the configured WBTC entry
(status `'achieved'`). -/
theorem achieved_asset_skipped_witness :
    processAsset envNone "WBTC" ⟨20.91, 8, "achieved"⟩ = ([], []) ∧
    mainRun envNone [("WBTC", ⟨20.91, 8, "achieved"⟩)] = mainRun envNone [] :=
  achieved_asset_skipped envNone "WBTC" ⟨20.91, 8, "achieved"⟩ [] rfl

/-- Claim C6 counterexample: with the script's own nine-asset target table
and an address book resolving none of them, the final summary list is empty —
the pre-achieved WBTC and the eight unresolved assets are all silently
dropped from the summary (lines 82-89 `continue` without appending to
`results`), rather than each producing one terminal record. -/
theorem summary_drops_skipped_assets :
    (mainRun envNone targets).2 = [] ∧ targets.length = 9 := by
  decide

/-- Claim C6 amended: the summary contains exactly one record, in configured
order, for each asset that is neither pre-achieved nor unresolved; assets
skipped by either gate produce no summary record at all (and no network
events — their processing is entirely empty). -/
theorem summary_records_processed_assets (env : Env)
    (assets : List (String × AssetConfig)) :
    (((mainRun env assets).2).map Prod.fst
      = (assets.filter
          (fun p => !(decide (p.2.status = "achieved")) && (lookupAddr env p.1).isSome)).map
            Prod.fst) ∧
    (∀ asset cfg, (cfg.status = "achieved" ∨ lookupAddr env asset = none) →
      processAsset env asset cfg = ([], [])) := by
  constructor
  · induction assets with
    | nil => simp [mainRun]
    | cons p rest ih =>
      obtain ⟨asset, cfg⟩ := p
      simp only [mainRun, List.map_append, ih, List.filter_cons]
      rw [processAsset_fst_map]
      by_cases h1 : cfg.status = "achieved"
      · simp [h1]
      · cases hA : lookupAddr env asset with
        | none => simp [h1, hA]
        | some token => simp [h1, hA]
  · intro asset cfg h
    rcases h with h | h
    · simp [processAsset, h]
    · by_cases h1 : cfg.status = "achieved"
      · simp [processAsset, h1]
      · simp [processAsset, h1, h]

/-- Claim C6 witness: the amended theorem applied to an unresolved asset. -/
theorem summary_records_processed_assets_witness :
    processAsset envNone "FOO" ⟨1, 0, "pending"⟩ = ([], []) :=
  (summary_records_processed_assets envNone []).2 "FOO" ⟨1, 0, "pending"⟩ (Or.inr rfl)

/-- Claim C7: a failing pool-state read for one asset produces exactly one
`error` outcome record for that asset, and the outcomes of every preceding
and following asset are exactly those of their own independent processing —
the per-asset `try/except` (lines 94-130) confines the failure. -/
theorem reader_failure_single_error_continues (env : Env)
    (xs ys : List (String × AssetConfig)) (asset : String) (cfg : AssetConfig)
    (token msg : String)
    (h1 : cfg.status ≠ "achieved") (h2 : lookupAddr env asset = some token)
    (h3 : env.readState token = Except.error msg) :
    (mainRun env (xs ++ (asset, cfg) :: ys)).2
      = (mainRun env xs).2 ++ (asset, RunStatus.error, 0) :: (mainRun env ys).2 := by
  rw [mainRun_append_snd]
  simp [mainRun, processAsset_read_error env asset cfg token msg h1 h2 h3]

/-- Claim C7 witness: the theorem applied to a concrete run in which GOLD's
read raises and SILVER follows it. -/
theorem reader_failure_single_error_continues_witness :
    (mainRun envErr ([] ++ ("GOLD", (⟨12.10, 6, "pending"⟩ : AssetConfig))
        :: [("SILVER", (⟨54.18, 6, "pending"⟩ : AssetConfig))])).2
      = (mainRun envErr []).2 ++ ("GOLD", RunStatus.error, 0)
          :: (mainRun envErr [("SILVER", (⟨54.18, 6, "pending"⟩ : AssetConfig))]).2 :=
  reader_failure_single_error_continues envErr []
    [("SILVER", ⟨54.18, 6, "pending"⟩)] "GOLD" ⟨12.10, 6, "pending"⟩ "0xG" "boom"
    (by decide) (by decide) rfl

/-- Claim C8 counterexample: at the out-of-range inputs `T = -5` and
`T = 200` the calculation does not fail — it returns ordinary values,
silently clamping the negative correction to `0` (line 108's `max`) and
producing an over-liquidity borrow of `2000` for `T = 200`; the code has no
`InvalidInputError` and no validation at all. -/
theorem out_of_range_inputs_not_rejected :
    additional_borrow_raw 1000 200 (-5) 0 = 0 ∧
    additional_borrow_raw 1000 0 200 0 = 2000 := by
  constructor
  · norm_num [additional_borrow_raw, additional_borrow]
  · norm_num [additional_borrow_raw, additional_borrow]
    decide

/-- Claim C8 amended: the calculator never rejects out-of-range inputs: it is
a total function with no error path; any nonpositive target is silently
clamped to a zero plan, and a target above 100% silently yields a borrow of
at least the entire liquidity. -/
theorem no_input_validation_silent_clamp (L B D : ℕ) (T : ℚ) :
    (T ≤ 0 → additional_borrow_raw L B T D = 0) ∧
    (100 < T → 0 < L → L ≤ additional_borrow_raw L 0 T D) := by
  constructor
  · intro hT
    apply raw_zero_of_nonpos
    have hL0 : (0:ℚ) ≤ (L:ℚ) := Nat.cast_nonneg L
    have hB : (0:ℚ) ≤ (B:ℚ) := Nat.cast_nonneg B
    nlinarith
  · intro hT hL
    have hLQ : (0:ℚ) < (L:ℚ) := by exact_mod_cast hL
    rw [additional_borrow_raw_eq]
    have hr : (L:ℚ) ≤ (L:ℚ) * T / 100 - ((0:ℕ):ℚ) := by
      push_cast
      rw [sub_zero, le_div_iff₀ (by norm_num : (0:ℚ) < 100)]
      nlinarith
    have h1 : (L:ℤ) ≤ ⌊max 0 ((L:ℚ) * T / 100 - ((0:ℕ):ℚ))⌋ := by
      apply Int.le_floor.mpr
      push_cast
      calc ((L:ℕ):ℚ) ≤ (L:ℚ) * T / 100 - 0 := by push_cast at hr ⊢; linarith
        _ ≤ max 0 ((L:ℚ) * T / 100 - 0) := le_max_right _ _
    have hnn : (0:ℤ) ≤ ⌊max 0 ((L:ℚ) * T / 100 - ((0:ℕ):ℚ))⌋ :=
      le_trans (by exact_mod_cast Nat.zero_le L) h1
    exact (Int.le_toNat hnn).mpr h1

/-- Claim C8 amended witness: the theorem applied at the negative target
`T = -5`. -/
theorem no_input_validation_silent_clamp_witness :
    additional_borrow_raw 1000 200 (-5) 0 = 0 :=
  (no_input_validation_silent_clamp 1000 200 0 (-5)).1 (by norm_num)

/-- Claim C9 counterexample: with the signing credential absent
(`envNoKey.credential = none`), a run over one pending resolvable asset still
performs the pool-state read and then attempts the borrow — the program
neither fails fast nor avoids network calls; the borrow merely fails
per-asset (the subprocess call raises on the `None` argument, line 57, and
is caught on line 67), leaving a `failed` record. -/
theorem missing_credential_reads_proceed :
    envNoKey.credential = none ∧
    (mainRun envNoKey [("WETH", ⟨50, 0, "pending"⟩)]).1
      = [NetEvent.read "0xW", NetEvent.borrow "0xW" 500] ∧
    (mainRun envNoKey [("WETH", ⟨50, 0, "pending"⟩)]).2
      = [("WETH", RunStatus.failed, 500)] := by
  have h1 : additional_borrow_raw 1000 0 50 0 = 500 := by
    norm_num [additional_borrow_raw, additional_borrow]
    decide
  have h2 : additional_borrow 1000 0 50 0 = 500 := by
    norm_num [additional_borrow]
  refine ⟨rfl, ?_, ?_⟩
  · simp [mainRun, processAsset, lookupAddr, envNoKey, h1]
  · simp [mainRun, processAsset, lookupAddr, envNoKey, h1, h2, runCast, borrow_asset]

/-- Claim C9 amended: when the credential is absent, the run is not aborted:
a pending resolvable asset with a positive computed plan is still read from
the network and a borrow is still attempted, which fails inside the executor
and is recorded as a `failed` outcome for that asset. -/
theorem missing_credential_per_asset_failure (env : Env) (asset : String)
    (cfg : AssetConfig) (token : String) (L B : ℕ)
    (hc : env.credential = none) (h1 : cfg.status ≠ "achieved")
    (h2 : lookupAddr env asset = some token)
    (h3 : env.readState token = Except.ok (L, B))
    (hpos : 0 < additional_borrow_raw L B cfg.util cfg.decimals) :
    processAsset env asset cfg
      = ([NetEvent.read token,
          NetEvent.borrow token (additional_borrow_raw L B cfg.util cfg.decimals)],
         [(asset, RunStatus.failed, additional_borrow L B cfg.util cfg.decimals)]) := by
  simp [processAsset, h1, h2, h3, hpos, runCast, hc, borrow_asset]

/-- Claim C9 amended witness: the theorem applied to the credential-less
world `envNoKey`. -/
theorem missing_credential_per_asset_failure_witness :
    processAsset envNoKey "WETH" ⟨50, 0, "pending"⟩
      = ([NetEvent.read "0xW", NetEvent.borrow "0xW" (additional_borrow_raw 1000 0 50 0)],
         [("WETH", RunStatus.failed, additional_borrow 1000 0 50 0)]) :=
  missing_credential_per_asset_failure envNoKey "WETH" ⟨50, 0, "pending"⟩ "0xW" 1000 0
    rfl (by decide) (by decide) rfl
    (by show 0 < additional_borrow_raw 1000 0 50 0
        have h1 : additional_borrow_raw 1000 0 50 0 = 500 := by
          norm_num [additional_borrow_raw, additional_borrow]
          decide
        rw [h1]
        norm_num)

/-- Claim C10: `borrow_asset` is total over every possible subprocess result
(exceptions included — they are returned as `(false, diagnostic)`), and it
returns success exactly when the string `transactionHash` occurs in the
transaction tool's standard output. -/
theorem borrow_asset_total_characterization (res : Except String (String × String)) :
    ((borrow_asset res).1 = true ↔
      ∃ out err, res = Except.ok (out, err) ∧ hasSubstr out "transactionHash" = true) ∧
    (∀ e, borrow_asset (Except.error e) = (false, e)) := by
  constructor
  · cases res with
    | error e => simp [borrow_asset]
    | ok p =>
      obtain ⟨out, err⟩ := p
      by_cases h : hasSubstr out "transactionHash" = true
      · simp [borrow_asset, h]
      · simp [borrow_asset, h]
  · intro e
    rfl

/-- Claim C10 witness: the theorem applied at a concrete successful
subprocess result. -/
theorem borrow_asset_total_characterization_witness :
    (borrow_asset (Except.ok ("transactionHash 0x2", ""))).1 = true :=
  (borrow_asset_total_characterization (Except.ok ("transactionHash 0x2", ""))).1.mpr
    ⟨"transactionHash 0x2", "", rfl, by decide⟩

end AchieveApyGoals
